import Mathlib

/-!
Verification of the MPEG frame-header parsing core (`src/utils.rs`,
`src/result.rs`, `src/decoder.rs`) of the rustymp3 repository.

The Rust code is shallowly embedded: machine integers become `Nat` with
explicit `% 2 ^ w` truncation where overflow matters, fallible or panicking
code returns `Option`, and the byte cursor of the decoder becomes explicit
list passing.  Panics (failed `debug_assert!`, shift-amount overflow,
`unreachable!`, index out of bounds, `usize` underflow) are modelled as
`none`, matching the behaviour of a debug build, which is the configuration
the repository's own test suite exercises.
-/

namespace Rustymp3

/-! ## utils.rs — the generic bit-field extractor

`UIntBitsRng::bit_range` is generic over the operand width `W` and over a
range whose two bounds are each unbounded, included or excluded, mirroring
`std::ops::Bound`. -/

/-- One end of a Rust `RangeBounds` value (`std::ops::Bound`). -/
inductive RBound where
  | unbounded : RBound
  | included : Nat → RBound
  | excluded : Nat → RBound
deriving DecidableEq

/-- A Rust range value: a start bound and an end bound. -/
structure RRange where
  start : RBound
  stop : RBound
deriving DecidableEq

/-- Rust `x >> n` on a `W`-bit unsigned integer: a shift amount of `W` or
more is an overflow panic in a debug build, modelled as `none`. -/
def shr_checked (W x n : Nat) : Option Nat :=
  if n < W then some (x >>> n) else none

/-- Rust `x << n` on a `W`-bit unsigned integer: bits shifted above the
width are discarded; a shift amount of `W` or more panics (`none`). -/
def shl_checked (W x n : Nat) : Option Nat :=
  if n < W then some ((x <<< n) % 2 ^ W) else none

/-- The tail of `bit_range` after `low` and `hig` have been resolved: the
`debug_assert!(low <= self_sz)` guard followed by the shift cascade
`self >> low << low << hig >> hig >> low`. -/
def bit_range_shifts (W x low hig : Nat) : Option Nat :=
  if low ≤ W then
    (shr_checked W x low).bind fun a =>
    (shl_checked W a low).bind fun b =>
    (shl_checked W b hig).bind fun c =>
    (shr_checked W c hig).bind fun d =>
    shr_checked W d low
  else none

/-- `bit_range` after the start bound has been resolved to `low`: match on
the end bound, computing `hig`, the number of high bits to clear, with the
source's `debug_assert!` guards (`none` on failure). -/
def bit_range_after_low (W x low : Nat) : RBound → Option Nat
  | RBound.unbounded => bit_range_shifts W x low 0
  | RBound.included h =>
      if h < W ∧ low ≤ h then bit_range_shifts W x low (W - 1 - h) else none
  | RBound.excluded h =>
      if h ≤ W ∧ low ≤ h then bit_range_shifts W x low (W - h) else none

/-- `UIntBitsRng::bit_range` for a `W`-bit operand `x`.  An excluded start
bound is the source's `unreachable!` panic. -/
def bit_range (W x : Nat) (r : RRange) : Option Nat :=
  match r.start with
  | RBound.unbounded => bit_range_after_low W x 0 r.stop
  | RBound.included l => bit_range_after_low W x l r.stop
  | RBound.excluded _ => none

/-- The resolved inclusive lower bit position of a range. -/
def resolvedLow (r : RRange) : Nat :=
  match r.start with
  | RBound.unbounded => 0
  | RBound.included l => l
  | RBound.excluded l => l + 1

/-- The resolved exclusive upper bit position of an end bound over a
`W`-bit operand. -/
def resolveStop (W : Nat) : RBound → Nat
  | RBound.unbounded => W
  | RBound.included h => h + 1
  | RBound.excluded h => h

/-- The resolved exclusive upper bit position of a range over a `W`-bit
operand. -/
def resolvedHigh (W : Nat) (r : RRange) : Nat :=
  resolveStop W r.stop

/-- The shift cascade of `bit_range`, specialised to `u32` operands and a
half-open range `lo..hi`, where `hig = 32 - hi`; this is the form every
call site in `decoder.rs` uses.  Total, because every such call site is in
bounds. -/
def bitRangeU32 (x lo hi : Nat) : Nat :=
  ((x >>> lo <<< lo <<< (32 - hi)) % 2 ^ 32) >>> (32 - hi) >>> lo

/-! ### Arithmetic of the shift cascade -/

/-- The shift cascade with a single width-truncation extracts the bit field
`[lo, hi)`: it equals right-shift by `lo` followed by masking to
`hi - lo` bits. -/
lemma shift_extract0 (W x lo hi : Nat) (h1 : lo ≤ hi) (h2 : hi ≤ W) :
    ((x >>> lo <<< lo <<< (W - hi)) % 2 ^ W) >>> (W - hi) >>> lo
      = (x >>> lo) % 2 ^ (hi - lo) := by
  have e1 : x >>> lo <<< lo <<< (W - hi) = x >>> lo * 2 ^ (lo + (W - hi)) := by
    rw [Nat.shiftLeft_eq, Nat.shiftLeft_eq, mul_assoc, ← pow_add]
  have e2 : 2 ^ W = 2 ^ (hi - lo) * 2 ^ (lo + (W - hi)) := by
    rw [← pow_add]
    congr 1
    omega
  rw [e1, e2, Nat.mul_mod_mul_right]
  simp only [Nat.shiftRight_eq_div_pow]
  rw [Nat.div_div_eq_div_mul, ← pow_add]
  rw [show W - hi + lo = lo + (W - hi) from Nat.add_comm _ _]
  exact Nat.mul_div_cancel _ (Nat.pos_pow_of_pos _ (by norm_num))

/-- `bitRangeU32` extracts the bit field `[lo, hi)`. -/
lemma bitRangeU32_eq (x lo hi : Nat) (h1 : lo ≤ hi) (h2 : hi ≤ 32) :
    bitRangeU32 x lo hi = (x >>> lo) % 2 ^ (hi - lo) :=
  shift_extract0 32 x lo hi h1 h2

/-- A `bitRangeU32` extraction is bounded by the width of the field. -/
lemma bitRangeU32_lt (x lo hi : Nat) (h1 : lo ≤ hi) (h2 : hi ≤ 32) :
    bitRangeU32 x lo hi < 2 ^ (hi - lo) := by
  rw [bitRangeU32_eq x lo hi h1 h2]
  exact Nat.mod_lt _ (Nat.pos_pow_of_pos _ (by norm_num))

/-- The stepwise-truncating shift cascade (as executed by the generic
`bit_range` on a `W`-bit operand) extracts the field `[lo, W - hig)`. -/
lemma shift_extract (W x lo hig : Nat) (h1 : lo + hig ≤ W) (hx : x < 2 ^ W) :
    ((((x >>> lo <<< lo) % 2 ^ W) <<< hig % 2 ^ W) >>> hig) >>> lo
      = (x >>> lo) % 2 ^ (W - hig - lo) := by
  have hle : x >>> lo <<< lo ≤ x := by
    rw [Nat.shiftLeft_eq, Nat.shiftRight_eq_div_pow]
    exact Nat.div_mul_le_self x (2 ^ lo)
  have e1 : (x >>> lo <<< lo) % 2 ^ W = x >>> lo <<< lo :=
    Nat.mod_eq_of_lt (lt_of_le_of_lt hle hx)
  have e2 : W - (W - hig) = hig := by omega
  have e3 := shift_extract0 W x lo (W - hig) (by omega) (by omega)
  rw [e2] at e3
  rw [e1, e3]

/-- On a successful run the guards of `bit_range_shifts` all pass and the
result is the stepwise shift cascade. -/
lemma bit_range_shifts_eq (W x low hig : Nat) (h1 : low < W) (h2 : hig < W) :
    bit_range_shifts W x low hig
      = some (((x >>> low <<< low % 2 ^ W) <<< hig % 2 ^ W) >>> hig >>> low) := by
  unfold bit_range_shifts shr_checked shl_checked
  simp [h1, h2, Nat.le_of_lt h1]

/-! ## result.rs -/

/-- The two recoverable error kinds of `result.rs`. -/
inductive Error where
  | UnsupportedFormat : String → Error
  | InvalidHeader : String → Error
deriving DecidableEq

/-! ## decoder.rs — the header model -/

/-- Channel mode (`enum Mode`), `repr(u8)` order `Stereo = 0, ...`. -/
inductive Mode where
  | Stereo : Mode
  | Joint : Mode
  | Dual : Mode
  | Single : Mode
deriving DecidableEq

/-- MPEG layer (`enum Layer`), `repr(u8)` order `Reserved = 0, L1, L2, L3`. -/
inductive Layer where
  | Reserved : Layer
  | L1 : Layer
  | L2 : Layer
  | L3 : Layer
deriving DecidableEq

/-- `Layer as usize` under its `repr(u8)`. -/
def layerRepr : Layer → Nat
  | Layer.Reserved => 0
  | Layer.L1 => 1
  | Layer.L2 => 2
  | Layer.L3 => 3

/-- Emphasis (`enum Emphasis`), `repr(u8)` order. -/
inductive Emphasis where
  | None : Emphasis
  | Ms_50_15 : Emphasis
  | Reserved : Emphasis
  | CCIT_J_17 : Emphasis
deriving DecidableEq

/-- `struct Header(u32)`: an opaque 32-bit word. -/
structure Header where
  raw : Nat
deriving DecidableEq

/-- The `match` in `Header::layer` on `bit_range(17..19)`: the extraction
is provably below 4, so the source's `unreachable!` arm cannot fire; any
total completion of the match is extensionally the source function. -/
def codeToLayer : Nat → Layer
  | 0 => Layer.Reserved
  | 1 => Layer.L3
  | 2 => Layer.L2
  | _ => Layer.L1

/-- The `match` in `Header::channel_mode` on `bit_range(6..8)`. -/
def codeToMode : Nat → Mode
  | 0 => Mode.Stereo
  | 1 => Mode.Joint
  | 2 => Mode.Dual
  | _ => Mode.Single

/-- The `match` in `Header::emphasis` on `bit_range(0..2)`. -/
def codeToEmphasis : Nat → Emphasis
  | 0 => Emphasis.None
  | 1 => Emphasis.Ms_50_15
  | 2 => Emphasis.Reserved
  | _ => Emphasis.CCIT_J_17

/-- `Header::is_mpeg25`: `bit_range(20..21) == 0`. -/
def Header.is_mpeg25 (h : Header) : Bool :=
  bitRangeU32 h.raw 20 21 == 0

/-- `Header::is_mpeg2`: `bit_range(19..20) == 1`. -/
def Header.is_mpeg2 (h : Header) : Bool :=
  bitRangeU32 h.raw 19 20 == 1

/-- `Header::is_mpeg1`. -/
def Header.is_mpeg1 (h : Header) : Bool :=
  !h.is_mpeg25 && !h.is_mpeg2

/-- `Header::layer`: decode `bit_range(17..19)`. -/
def Header.layer (h : Header) : Layer :=
  codeToLayer (bitRangeU32 h.raw 17 19)

/-- `Header::is_protected`: `bit_range(16..17) == 0`. -/
def Header.is_protected (h : Header) : Bool :=
  bitRangeU32 h.raw 16 17 == 0

/-- `Header::bitrate_index`: `bit_range(12..16)`. -/
def Header.bitrate_index (h : Header) : Nat :=
  bitRangeU32 h.raw 12 16

/-- `Header::sampling_rate_index`: has `debug_assert!(self.is_mpeg1())`,
modelled as `none` when the assertion fails, then `bit_range(10..12)`. -/
def Header.sampling_rate_index (h : Header) : Option Nat :=
  if h.is_mpeg1 then some (bitRangeU32 h.raw 10 12) else none

/-- `Header::padding`: `bit_range(9..10) != 0`. -/
def Header.padding (h : Header) : Bool :=
  bitRangeU32 h.raw 9 10 != 0

/-- `Header::private_bit`: `bit_range(8..9) != 0`. -/
def Header.private_bit (h : Header) : Bool :=
  bitRangeU32 h.raw 8 9 != 0

/-- `Header::channel_mode`: decode `bit_range(6..8)`. -/
def Header.channel_mode (h : Header) : Mode :=
  codeToMode (bitRangeU32 h.raw 6 8)

/-- `Header::mode_ext`: `bit_range(4..6)`. -/
def Header.mode_ext (h : Header) : Nat :=
  bitRangeU32 h.raw 4 6

/-- `Header::copyright_bit`: `bit_range(3..4) != 0`. -/
def Header.copyright_bit (h : Header) : Bool :=
  bitRangeU32 h.raw 3 4 != 0

/-- `Header::original_bit`: `bit_range(2..3) != 0`. -/
def Header.original_bit (h : Header) : Bool :=
  bitRangeU32 h.raw 2 3 != 0

/-- `Header::emphasis`: decode `bit_range(0..2)`. -/
def Header.emphasis (h : Header) : Emphasis :=
  codeToEmphasis (bitRangeU32 h.raw 0 2)

/-- `Header::from_raw`: the ordered validation chain. -/
def Header.from_raw (raw : Nat) : Except Error Header :=
  let hdr : Header := ⟨raw⟩
  if hdr.is_mpeg25 then Except.error (Error.UnsupportedFormat "MPEG-2.5")
  else if hdr.is_mpeg2 then Except.error (Error.UnsupportedFormat "MPEG-2")
  else if hdr.layer = Layer.Reserved then
    Except.error (Error.InvalidHeader "layer 0x00 is reserved")
  else if hdr.bitrate_index = 15 then
    Except.error (Error.InvalidHeader "bitrate index 0b1111 is invalid")
  else if hdr.sampling_rate_index = some 3 then
    Except.error (Error.InvalidHeader "sampling rate index 0b11 is reserved")
  else if hdr.emphasis = Emphasis.Reserved then
    Except.error (Error.InvalidHeader "emphasis 0b10 is reserved")
  else Except.ok hdr

/-- The static `BITRATES` table of `Header::bitrate_kbps`: rows L1, L2, L3,
each of 15 entries. -/
def BITRATES : List (List Nat) :=
  [[0, 32, 64, 96, 128, 160, 192, 224, 256, 288, 320, 352, 384, 416, 448],
   [0, 32, 48, 56, 64, 80, 96, 112, 128, 160, 192, 224, 256, 320, 384],
   [0, 32, 40, 48, 56, 64, 80, 96, 112, 128, 160, 192, 224, 256, 320]]

/-- `Header::bitrate_kbps`: `BITRATES[self.layer() as usize - 1]
[self.bitrate_index()]`.  In a debug build `usize` underflow
(`Reserved as usize - 1`) and out-of-bounds indexing panic: `none`. -/
def Header.bitrate_kbps (h : Header) : Option Nat := do
  let li ← if 1 ≤ layerRepr h.layer
    then some (layerRepr h.layer - 1) else none
  let row ← BITRATES[li]?
  row[h.bitrate_index]?

/-- The static `RATES` table of `Header::sampling_rate_hz`. -/
def RATES : List Nat := [44100, 48000, 32000]

/-- `Header::sampling_rate_hz`: `RATES[self.sampling_rate_index()]`, with
out-of-bounds indexing (and the inner `debug_assert!`) as `none`. -/
def Header.sampling_rate_hz (h : Header) : Option Nat := do
  let i ← h.sampling_rate_index
  RATES[i]?

/-! ## decoder.rs — the frame synchronizer -/

/-- `starts_with_syncword` inside `Decoder::read_header`:
`(raw.bit_range(20..32) | 1) as u16 == 0xfff0`. -/
def starts_with_syncword (raw : Nat) : Bool :=
  ((bitRangeU32 raw 20 32 ||| 1) % 2 ^ 16) == 0xfff0

/-- The resynchronization loop of `read_header`: shift the candidate left
one byte (`u32` wrapping), OR in the next byte, stop at the first syncword
match.  Note the source iterates `self.raw.iter()` without advancing the
cursor, so this function only transforms the candidate word. -/
def scanLoop (raw : Nat) : List Nat → Nat
  | [] => raw
  | b :: bs =>
      let raw2 := ((raw <<< 8) % 2 ^ 32) ||| b
      if starts_with_syncword raw2 then raw2 else scanLoop raw2 bs

/-- `Decoder::read_header`, with the cursor slice made explicit: takes the
remaining bytes and returns the outcome together with the remaining bytes
after the call (the source mutates `self.raw` through `advance`). -/
def readHeader (buf : List Nat) : Option (Except Error Header) × List Nat :=
  match buf with
  | b0 :: b1 :: b2 :: b3 :: rest =>
      let raw := (b0 <<< 24) ||| (b1 <<< 16) ||| (b2 <<< 8) ||| b3
      let raw2 := if starts_with_syncword raw then raw else scanLoop raw rest
      if starts_with_syncword raw2 then
        match Header.from_raw raw2 with
        | Except.error e => (some (Except.error e), rest)
        | Except.ok hdr =>
            if hdr.is_protected then
              match rest with
              | _ :: _ :: rest2 => (some (Except.ok hdr), rest2)
              | _ => (none, rest)
            else (some (Except.ok hdr), rest)
      else (none, rest)
  | _ => (none, buf)

/-! ## Spec-side definitions -/

/-- Modelled from the spec (§3 data model, §8 round-trip property): a
32-bit header word assembled from field values, placed at the bit
positions the field table describes as realized in `decoder.rs` (sync
prefix bits 21–31 all ones; the version-selector area set to the MPEG-1
pattern, bit 20 = 1 and bit 19 = 0). -/
def specPackHeader (layer prot bi si pad priv mode ext copy orig emph : Nat) : Nat :=
  0xFFF00000 + layer * 0x20000 + prot * 0x10000 + bi * 0x1000 + si * 0x400
    + pad * 0x200 + priv * 0x100 + mode * 0x40 + ext * 0x10
    + copy * 8 + orig * 4 + emph

/-- The six validation checks of `Header::from_raw`, in source order, each
paired with the error it reports. -/
def checkList : List ((Nat → Bool) × Error) :=
  [(fun r => (Header.mk r).is_mpeg25, Error.UnsupportedFormat "MPEG-2.5"),
   (fun r => (Header.mk r).is_mpeg2, Error.UnsupportedFormat "MPEG-2"),
   (fun r => decide ((Header.mk r).layer = Layer.Reserved),
     Error.InvalidHeader "layer 0x00 is reserved"),
   (fun r => decide ((Header.mk r).bitrate_index = 15),
     Error.InvalidHeader "bitrate index 0b1111 is invalid"),
   (fun r => decide ((Header.mk r).sampling_rate_index = some 3),
     Error.InvalidHeader "sampling rate index 0b11 is reserved"),
   (fun r => decide ((Header.mk r).emphasis = Emphasis.Reserved),
     Error.InvalidHeader "emphasis 0b10 is reserved")]

/-- First-failing-check semantics over `checkList`. -/
def firstError (raw : Nat) : Option Error :=
  (checkList.find? (fun c => c.1 raw)).map Prod.snd

/-! ## Supporting lemmas for the generic extractor -/

/-- After the start bound is resolved to `low`, a range whose resolved
span is nonempty and within the width extracts the field
`[low, resolveStop W t)`. -/
lemma bit_range_after_low_spec (W x low : Nat) (t : RBound) (hx : x < 2 ^ W)
    (h1 : low < resolveStop W t) (h2 : resolveStop W t ≤ W) :
    bit_range_after_low W x low t
      = some ((x >>> low) % 2 ^ (resolveStop W t - low)) := by
  cases t with
  | unbounded =>
      simp only [resolveStop] at h1 h2 ⊢
      show bit_range_shifts W x low 0 = _
      rw [bit_range_shifts_eq W x low 0 h1 (by omega)]
      rw [shift_extract W x low 0 (by omega) hx]
      have e : W - 0 - low = W - low := by omega
      rw [e]
  | included h =>
      simp only [resolveStop] at h1 h2 ⊢
      show (if h < W ∧ low ≤ h then bit_range_shifts W x low (W - 1 - h) else none) = _
      rw [if_pos ⟨by omega, by omega⟩]
      rw [bit_range_shifts_eq W x low (W - 1 - h) (by omega) (by omega)]
      rw [shift_extract W x low (W - 1 - h) (by omega) hx]
      have e : W - (W - 1 - h) - low = h + 1 - low := by omega
      rw [e]
  | excluded h =>
      simp only [resolveStop] at h1 h2 ⊢
      show (if h ≤ W ∧ low ≤ h then bit_range_shifts W x low (W - h) else none) = _
      rw [if_pos ⟨by omega, by omega⟩]
      rw [bit_range_shifts_eq W x low (W - h) (by omega) (by omega)]
      rw [shift_extract W x low (W - h) (by omega) hx]
      have e : W - (W - h) - low = h - low := by omega
      rw [e]

/-- `bitRangeU32` as division and remainder, the reference form used to
check the packed-word round trip. -/
lemma bitRangeU32_div_mod (x lo hi : Nat) (h1 : lo ≤ hi) (h2 : hi ≤ 32) :
    bitRangeU32 x lo hi = x / 2 ^ lo % 2 ^ (hi - lo) := by
  rw [bitRangeU32_eq x lo hi h1 h2, Nat.shiftRight_eq_div_pow]

/-- Indexing a list below its length yields a value. -/
lemma isSome_getElem_of_lt {α : Type} (l : List α) (i : Nat) (h : i < l.length) :
    (l[i]?).isSome = true := by
  rw [List.getElem?_eq_getElem h]
  rfl

/-! ## Claim theorems -/

/-- C1: the spec says the syncword predicate accepts a word exactly when
its top 11 bits are all 1 (top 12 bits with the version bit OR-ed in equal
`0xFFF`).  The code instead compares the 12-bit extraction, a value of at
most `0xFFF`, against `0xfff0`, so the predicate rejects every 32-bit
word: it is constantly false.  This is the code-bug evidence. -/
theorem syncword_predicate_constantly_false (raw : Nat) :
    starts_with_syncword raw = false := by
  unfold starts_with_syncword
  have h1 : bitRangeU32 raw 20 32 < 2 ^ 12 :=
    bitRangeU32_lt raw 20 32 (by norm_num) (by norm_num)
  have h2 : bitRangeU32 raw 20 32 ||| 1 < 2 ^ 12 :=
    Nat.or_lt_two_pow h1 (by norm_num)
  have h3 : (bitRangeU32 raw 20 32 ||| 1) % 2 ^ 16 = bitRangeU32 raw 20 32 ||| 1 :=
    Nat.mod_eq_of_lt (lt_trans h2 (by norm_num))
  rw [h3, beq_eq_false_iff_ne]
  intro hc
  rw [hc] at h2
  norm_num at h2

/-- C7 (amended): for the supported widths, any operand of that width and
any range with a non-excluded start whose resolved span `[low, high)` is
nonempty and within the width, `bit_range` returns the bits `low..high`
right-aligned: `(x >> low)` masked to `high - low` bits.  (The original
claim, which also admits empty spans with `low = high`, fails: see the
counterexample.) -/
theorem bit_range_nonempty_range_extracts (W x : Nat) (r : RRange)
    (hW : W = 8 ∨ W = 16 ∨ W = 32 ∨ W = 64) (hx : x < 2 ^ W)
    (hs : ∀ n, r.start ≠ RBound.excluded n)
    (h1 : resolvedLow r < resolvedHigh W r) (h2 : resolvedHigh W r ≤ W) :
    bit_range W x r
      = some ((x >>> resolvedLow r) % 2 ^ (resolvedHigh W r - resolvedLow r)) := by
  obtain ⟨s, t⟩ := r
  cases s with
  | excluded n => exact absurd rfl (hs n)
  | unbounded =>
      simp only [resolvedLow, resolvedHigh] at h1 h2 ⊢
      exact bit_range_after_low_spec W x 0 t hx h1 h2
  | included l =>
      simp only [resolvedLow, resolvedHigh] at h1 h2 ⊢
      exact bit_range_after_low_spec W x l t hx h1 h2

/-- Witness for C7's amended theorem at a concrete in-range input. -/
theorem bit_range_nonempty_range_extracts_witness :
    bit_range 32 0xABCD1234 ⟨RBound.included 8, RBound.excluded 16⟩
      = some ((0xABCD1234 >>> resolvedLow ⟨RBound.included 8, RBound.excluded 16⟩)
          % 2 ^ (resolvedHigh 32 ⟨RBound.included 8, RBound.excluded 16⟩
              - resolvedLow ⟨RBound.included 8, RBound.excluded 16⟩)) :=
  bit_range_nonempty_range_extracts 32 0xABCD1234
    ⟨RBound.included 8, RBound.excluded 16⟩
    (Or.inr (Or.inr (Or.inl rfl))) (by norm_num)
    (fun n h => RBound.noConfusion h) (by decide) (by decide)

/-- C7 counterexample: the range `0..0` on a `u8` operand resolves to the
span `[0, 0)`, which satisfies the claim's side conditions
`low ≤ high ≤ W`, yet the code aborts (shift-overflow panic on `<< 8`)
instead of returning the masked value `some 0`. -/
theorem bit_range_empty_range_returns_none :
    bit_range 8 1 ⟨RBound.included 0, RBound.excluded 0⟩ = none ∧
    resolvedLow ⟨RBound.included 0, RBound.excluded 0⟩
      ≤ resolvedHigh 8 ⟨RBound.included 0, RBound.excluded 0⟩ ∧
    resolvedHigh 8 ⟨RBound.included 0, RBound.excluded 0⟩ ≤ 8 := by
  refine ⟨?_, by decide, by decide⟩
  rfl

/-- C8: for every supported width, operand and range whose resolved bounds
are a contract violation — inverted (`high < low`) or exceeding the
operand width — `bit_range` halts (modelled as `none`) instead of
returning a value. -/
theorem bit_range_contract_violation_halts (W x : Nat) (r : RRange)
    (hW : W = 8 ∨ W = 16 ∨ W = 32 ∨ W = 64) (hx : x < 2 ^ W)
    (hviol : resolvedHigh W r < resolvedLow r ∨ W < resolvedLow r
      ∨ W < resolvedHigh W r) :
    bit_range W x r = none := by
  obtain ⟨s, t⟩ := r
  cases s with
  | excluded n => rfl
  | unbounded =>
      simp only [resolvedLow, resolvedHigh, resolveStop] at hviol
      cases t with
      | unbounded =>
          exfalso
          simp only [resolveStop] at hviol
          omega
      | included h =>
          simp only [resolveStop] at hviol
          show (if h < W ∧ 0 ≤ h then bit_range_shifts W x 0 (W - 1 - h) else none)
            = none
          rw [if_neg]
          omega
      | excluded h =>
          simp only [resolveStop] at hviol
          show (if h ≤ W ∧ 0 ≤ h then bit_range_shifts W x 0 (W - h) else none)
            = none
          rw [if_neg]
          omega
  | included l =>
      simp only [resolvedLow, resolvedHigh, resolveStop] at hviol
      cases t with
      | unbounded =>
          simp only [resolveStop] at hviol
          show (if l ≤ W then _ else none) = none
          rw [if_neg]
          omega
      | included h =>
          simp only [resolveStop] at hviol
          show (if h < W ∧ l ≤ h then bit_range_shifts W x l (W - 1 - h) else none)
            = none
          rw [if_neg]
          omega
      | excluded h =>
          simp only [resolveStop] at hviol
          show (if h ≤ W ∧ l ≤ h then bit_range_shifts W x l (W - h) else none)
            = none
          rw [if_neg]
          omega

/-- Witness for C8 at the concrete inverted range `2..1` on `u8`, the
repository's own `bit_range_fail3` test input. -/
theorem bit_range_contract_violation_halts_witness :
    bit_range 8 1 ⟨RBound.included 2, RBound.excluded 1⟩ = none :=
  bit_range_contract_violation_halts 8 1 ⟨RBound.included 2, RBound.excluded 1⟩
    (Or.inl rfl) (by norm_num) (by decide)

/-- C3: a word the code classifies as MPEG-2.5 is rejected as
`UnsupportedFormat("MPEG-2.5")` whatever its other fields; a word the code
classifies as MPEG-2 (not MPEG-2.5, `is_mpeg2`) is rejected as
`UnsupportedFormat("MPEG-2")`; and an MPEG-1 word is never rejected with an
`UnsupportedFormat` error. -/
theorem from_raw_version_dispatch (raw : Nat) (h32 : raw < 2 ^ 32) :
    ((Header.mk raw).is_mpeg25 = true →
      Header.from_raw raw = Except.error (Error.UnsupportedFormat "MPEG-2.5")) ∧
    ((Header.mk raw).is_mpeg25 = false → (Header.mk raw).is_mpeg2 = true →
      Header.from_raw raw = Except.error (Error.UnsupportedFormat "MPEG-2")) ∧
    ((Header.mk raw).is_mpeg1 = true →
      ∀ s, Header.from_raw raw ≠ Except.error (Error.UnsupportedFormat s)) := by
  refine ⟨fun h1 => ?_, fun h1 h2 => ?_, fun h1 s => ?_⟩
  · unfold Header.from_raw
    simp [h1]
  · unfold Header.from_raw
    simp [h1, h2]
  · unfold Header.is_mpeg1 at h1
    simp only [Bool.and_eq_true, Bool.not_eq_eq_eq_not, Bool.not_true] at h1
    unfold Header.from_raw
    simp only [h1.1, h1.2, Bool.false_eq_true, if_false]
    split
    · simp
    · split
      · simp
      · split
        · simp
        · split
          · simp
          · simp

/-- Witness for C3 at the concrete word 0 (version bits 0: MPEG-2.5). -/
theorem from_raw_version_dispatch_witness :
    Header.from_raw 0 = Except.error (Error.UnsupportedFormat "MPEG-2.5") :=
  (from_raw_version_dispatch 0 (by norm_num)).1 (by decide)

/-- C5: `Header::from_raw` is exactly first-failing-check semantics over
the ordered six-entry check list: the first check that fires determines
the error, a word firing none is accepted as a `Header`, and there is no
other rejection cause. -/
theorem from_raw_eq_first_failing_check (raw : Nat) (h32 : raw < 2 ^ 32) :
    Header.from_raw raw
      = match firstError raw with
        | some e => Except.error e
        | none => Except.ok ⟨raw⟩ := by
  by_cases h1 : (Header.mk raw).is_mpeg25 = true
  · simp [Header.from_raw, firstError, checkList, List.find?, h1]
  · rw [Bool.not_eq_true] at h1
    by_cases h2 : (Header.mk raw).is_mpeg2 = true
    · simp [Header.from_raw, firstError, checkList, List.find?, h1, h2]
    · rw [Bool.not_eq_true] at h2
      by_cases h3 : (Header.mk raw).layer = Layer.Reserved
      · simp [Header.from_raw, firstError, checkList, List.find?, h1, h2, h3]
      · by_cases h4 : (Header.mk raw).bitrate_index = 15
        · simp [Header.from_raw, firstError, checkList, List.find?, h1, h2, h3, h4]
        · by_cases h5 : (Header.mk raw).sampling_rate_index = some 3
          · simp [Header.from_raw, firstError, checkList, List.find?,
              h1, h2, h3, h4, h5]
          · by_cases h6 : (Header.mk raw).emphasis = Emphasis.Reserved
            · simp [Header.from_raw, firstError, checkList, List.find?,
                h1, h2, h3, h4, h5, h6]
            · simp [Header.from_raw, firstError, checkList, List.find?,
                h1, h2, h3, h4, h5, h6]

/-- Witness for C5 at a concrete accepted word. -/
theorem from_raw_eq_first_failing_check_witness :
    Header.from_raw 0xFFF58000
      = match firstError 0xFFF58000 with
        | some e => Except.error e
        | none => Except.ok ⟨0xFFF58000⟩ :=
  from_raw_eq_first_failing_check 0xFFF58000 (by norm_num)

/-- C6 counterexample: the claim promises `InvalidHeader` for a bitrate
field of `0b1111` "independent of all other field values", but on the word
`0x0000F000` — bitrate field all ones, version bits MPEG-2.5 — the earlier
version check fires first and the result is `UnsupportedFormat`, not
`InvalidHeader`. -/
theorem invalid_field_preempted_by_version :
    Header.from_raw 0xF000 = Except.error (Error.UnsupportedFormat "MPEG-2.5") ∧
    (Header.mk 0xF000).bitrate_index = 15 := by
  exact ⟨rfl, by decide⟩

/-- C6 (amended): on a word whose version bits pass the version checks
(the code's MPEG-1 classification), a bitrate field of `0b1111`, a
sampling-rate field of `0b11` or an emphasis field of `0b10` always makes
`from_raw` report an `InvalidHeader` error, independent of the remaining
fields. -/
theorem invalid_fields_yield_invalid_header (raw : Nat) (h32 : raw < 2 ^ 32)
    (hv : (Header.mk raw).is_mpeg1 = true)
    (hfield : bitRangeU32 raw 12 16 = 15 ∨ bitRangeU32 raw 10 12 = 3
      ∨ bitRangeU32 raw 0 2 = 2) :
    ∃ s, Header.from_raw raw = Except.error (Error.InvalidHeader s) := by
  unfold Header.is_mpeg1 at hv
  simp only [Bool.and_eq_true, Bool.not_eq_eq_eq_not, Bool.not_true] at hv
  by_cases h3 : (Header.mk raw).layer = Layer.Reserved
  · exact ⟨"layer 0x00 is reserved", by
      unfold Header.from_raw
      simp [hv.1, hv.2, h3]⟩
  · by_cases h4 : (Header.mk raw).bitrate_index = 15
    · exact ⟨"bitrate index 0b1111 is invalid", by
        unfold Header.from_raw
        simp [hv.1, hv.2, h3, h4]⟩
    · by_cases h5 : (Header.mk raw).sampling_rate_index = some 3
      · exact ⟨"sampling rate index 0b11 is reserved", by
          unfold Header.from_raw
          simp [hv.1, hv.2, h3, h4, h5]⟩
      · have h6 : (Header.mk raw).emphasis = Emphasis.Reserved := by
          have hb : bitRangeU32 raw 12 16 ≠ 15 := h4
          have hsr : bitRangeU32 raw 10 12 ≠ 3 := by
            intro hc
            apply h5
            unfold Header.sampling_rate_index Header.is_mpeg1
            simp [hv.1, hv.2, hc]
          have he : bitRangeU32 raw 0 2 = 2 :=
            (hfield.resolve_left hb).resolve_left hsr
          unfold Header.emphasis
          rw [he]
          rfl
        exact ⟨"emphasis 0b10 is reserved", by
          unfold Header.from_raw
          simp [hv.1, hv.2, h3, h4, h5, h6]⟩

/-- Witness for C6's amended theorem: an MPEG-1 word with bitrate field
`0b1111` is rejected with an `InvalidHeader` error. -/
theorem invalid_fields_yield_invalid_header_witness :
    ∃ s, Header.from_raw 0xFFF0F000 = Except.error (Error.InvalidHeader s) :=
  invalid_fields_yield_invalid_header 0xFFF0F000 (by norm_num) (by decide)
    (Or.inl (by decide))

/-- C4: round trip.  Packing any legal combination of field values into a
32-bit word (MPEG-1 version bits, sync prefix all ones, every other field
at its table position) decodes successfully, and every accessor reproduces
exactly the packed value. -/
theorem header_field_round_trip
    (layer prot bi si pad priv mode ext copy orig emph : Nat)
    (hl1 : 1 ≤ layer) (hl2 : layer ≤ 3) (hp : prot ≤ 1) (hb : bi ≤ 14)
    (hsi : si ≤ 2) (hpd : pad ≤ 1) (hpr : priv ≤ 1) (hm : mode ≤ 3)
    (hex : ext ≤ 3) (hcp : copy ≤ 1) (hor : orig ≤ 1) (he1 : emph ≤ 3)
    (he2 : emph ≠ 2) :
    Header.from_raw (specPackHeader layer prot bi si pad priv mode ext copy orig emph)
        = Except.ok ⟨specPackHeader layer prot bi si pad priv mode ext copy orig emph⟩
      ∧ (Header.mk (specPackHeader layer prot bi si pad priv mode ext copy orig emph)).layer
          = codeToLayer layer
      ∧ (Header.mk (specPackHeader layer prot bi si pad priv mode ext copy orig emph)).is_protected
          = (prot == 0)
      ∧ (Header.mk (specPackHeader layer prot bi si pad priv mode ext copy orig emph)).bitrate_index
          = bi
      ∧ (Header.mk (specPackHeader layer prot bi si pad priv mode ext copy orig emph)).sampling_rate_index
          = some si
      ∧ (Header.mk (specPackHeader layer prot bi si pad priv mode ext copy orig emph)).padding
          = (pad != 0)
      ∧ (Header.mk (specPackHeader layer prot bi si pad priv mode ext copy orig emph)).private_bit
          = (priv != 0)
      ∧ (Header.mk (specPackHeader layer prot bi si pad priv mode ext copy orig emph)).channel_mode
          = codeToMode mode
      ∧ (Header.mk (specPackHeader layer prot bi si pad priv mode ext copy orig emph)).mode_ext
          = ext
      ∧ (Header.mk (specPackHeader layer prot bi si pad priv mode ext copy orig emph)).copyright_bit
          = (copy != 0)
      ∧ (Header.mk (specPackHeader layer prot bi si pad priv mode ext copy orig emph)).original_bit
          = (orig != 0)
      ∧ (Header.mk (specPackHeader layer prot bi si pad priv mode ext copy orig emph)).emphasis
          = codeToEmphasis emph := by
  set w := specPackHeader layer prot bi si pad priv mode ext copy orig emph with hw
  have f20 : bitRangeU32 w 20 21 = 1 := by
    rw [bitRangeU32_div_mod w 20 21 (by norm_num) (by norm_num)]
    norm_num
    rw [hw]
    simp only [specPackHeader]
    omega
  have f19 : bitRangeU32 w 19 20 = 0 := by
    rw [bitRangeU32_div_mod w 19 20 (by norm_num) (by norm_num)]
    norm_num
    rw [hw]
    simp only [specPackHeader]
    omega
  have f17 : bitRangeU32 w 17 19 = layer := by
    rw [bitRangeU32_div_mod w 17 19 (by norm_num) (by norm_num)]
    norm_num
    rw [hw]
    simp only [specPackHeader]
    omega
  have f16 : bitRangeU32 w 16 17 = prot := by
    rw [bitRangeU32_div_mod w 16 17 (by norm_num) (by norm_num)]
    norm_num
    rw [hw]
    simp only [specPackHeader]
    omega
  have f12 : bitRangeU32 w 12 16 = bi := by
    rw [bitRangeU32_div_mod w 12 16 (by norm_num) (by norm_num)]
    norm_num
    rw [hw]
    simp only [specPackHeader]
    omega
  have f10 : bitRangeU32 w 10 12 = si := by
    rw [bitRangeU32_div_mod w 10 12 (by norm_num) (by norm_num)]
    norm_num
    rw [hw]
    simp only [specPackHeader]
    omega
  have f9 : bitRangeU32 w 9 10 = pad := by
    rw [bitRangeU32_div_mod w 9 10 (by norm_num) (by norm_num)]
    norm_num
    rw [hw]
    simp only [specPackHeader]
    omega
  have f8 : bitRangeU32 w 8 9 = priv := by
    rw [bitRangeU32_div_mod w 8 9 (by norm_num) (by norm_num)]
    norm_num
    rw [hw]
    simp only [specPackHeader]
    omega
  have f6 : bitRangeU32 w 6 8 = mode := by
    rw [bitRangeU32_div_mod w 6 8 (by norm_num) (by norm_num)]
    norm_num
    rw [hw]
    simp only [specPackHeader]
    omega
  have f4 : bitRangeU32 w 4 6 = ext := by
    rw [bitRangeU32_div_mod w 4 6 (by norm_num) (by norm_num)]
    norm_num
    rw [hw]
    simp only [specPackHeader]
    omega
  have f3 : bitRangeU32 w 3 4 = copy := by
    rw [bitRangeU32_div_mod w 3 4 (by norm_num) (by norm_num)]
    norm_num
    rw [hw]
    simp only [specPackHeader]
    omega
  have f2 : bitRangeU32 w 2 3 = orig := by
    rw [bitRangeU32_div_mod w 2 3 (by norm_num) (by norm_num)]
    norm_num
    rw [hw]
    simp only [specPackHeader]
    omega
  have f0 : bitRangeU32 w 0 2 = emph := by
    rw [bitRangeU32_div_mod w 0 2 (by norm_num) (by norm_num)]
    norm_num
    rw [hw]
    simp only [specPackHeader]
    omega
  have hm25 : (Header.mk w).is_mpeg25 = false := by
    show (bitRangeU32 w 20 21 == 0) = false
    rw [f20]
    rfl
  have hm2 : (Header.mk w).is_mpeg2 = false := by
    show (bitRangeU32 w 19 20 == 1) = false
    rw [f19]
    rfl
  have hm1 : (Header.mk w).is_mpeg1 = true := by
    unfold Header.is_mpeg1
    rw [hm25, hm2]
    rfl
  have hlayer : (Header.mk w).layer = codeToLayer layer := by
    show codeToLayer (bitRangeU32 w 17 19) = codeToLayer layer
    rw [f17]
  have hlayer_ne : (Header.mk w).layer ≠ Layer.Reserved := by
    rw [hlayer]
    interval_cases layer <;> decide
  have hbi_acc : (Header.mk w).bitrate_index = bi := f12
  have hbi_ne : (Header.mk w).bitrate_index ≠ 15 := by
    rw [hbi_acc]
    omega
  have hsr_acc : (Header.mk w).sampling_rate_index = some si := by
    unfold Header.sampling_rate_index
    rw [hm1]
    simp only [if_true]
    rw [f10]
  have hsr_ne : (Header.mk w).sampling_rate_index ≠ some 3 := by
    rw [hsr_acc]
    simp only [ne_eq, Option.some.injEq]
    omega
  have hemph_acc : (Header.mk w).emphasis = codeToEmphasis emph := by
    show codeToEmphasis (bitRangeU32 w 0 2) = codeToEmphasis emph
    rw [f0]
  have hemph_ne : (Header.mk w).emphasis ≠ Emphasis.Reserved := by
    rw [hemph_acc]
    interval_cases emph
    · decide
    · decide
    · exact absurd rfl he2
    · decide
  refine ⟨?_, hlayer, ?_, hbi_acc, hsr_acc, ?_, ?_, ?_, ?_, ?_, ?_, hemph_acc⟩
  · unfold Header.from_raw
    simp [hm25, hm2, hlayer_ne, hbi_ne, hsr_ne, hemph_ne]
  · show (bitRangeU32 w 16 17 == 0) = (prot == 0)
    rw [f16]
  · show (bitRangeU32 w 9 10 != 0) = (pad != 0)
    rw [f9]
  · show (bitRangeU32 w 8 9 != 0) = (priv != 0)
    rw [f8]
  · show codeToMode (bitRangeU32 w 6 8) = codeToMode mode
    rw [f6]
  · show bitRangeU32 w 4 6 = ext
    rw [f4]
  · show (bitRangeU32 w 3 4 != 0) = (copy != 0)
    rw [f3]
  · show (bitRangeU32 w 2 3 != 0) = (orig != 0)
    rw [f2]

/-- Witness for C4 at the concrete legal combination layer II, no
protection, bitrate index 8, sampling-rate index 0, all flags clear. -/
theorem header_field_round_trip_witness :
    Header.from_raw (specPackHeader 2 1 8 0 0 0 0 0 0 0 0)
      = Except.ok ⟨specPackHeader 2 1 8 0 0 0 0 0 0 0 0⟩ :=
  (header_field_round_trip 2 1 8 0 0 0 0 0 0 0 0
    (by norm_num) (by norm_num) (by norm_num) (by norm_num) (by norm_num)
    (by norm_num) (by norm_num) (by norm_num) (by norm_num) (by norm_num)
    (by norm_num) (by norm_num) (by norm_num)).1

/-- C10: every `Header` accepted by `from_raw` has a non-reserved layer
(row index `layer - 1` within the 3-row bitrate table), a bitrate index of
at most 14 (within each 15-entry row) and a sampling-rate index of at most
2 (within the 3-entry rate table), so `bitrate_kbps` and
`sampling_rate_hz` both return values, never indexing out of bounds. -/
theorem validated_header_table_lookups_in_bounds (raw : Nat) (h32 : raw < 2 ^ 32)
    (hdr : Header) (h : Header.from_raw raw = Except.ok hdr) :
    hdr.layer ≠ Layer.Reserved
      ∧ 1 ≤ layerRepr hdr.layer ∧ layerRepr hdr.layer - 1 ≤ 2
      ∧ hdr.bitrate_index ≤ 14
      ∧ (∃ si, hdr.sampling_rate_index = some si ∧ si ≤ 2)
      ∧ hdr.bitrate_kbps.isSome = true
      ∧ hdr.sampling_rate_hz.isSome = true := by
  unfold Header.from_raw at h
  by_cases h1 : (Header.mk raw).is_mpeg25 = true
  · simp [h1] at h
  rw [Bool.not_eq_true] at h1
  by_cases h2 : (Header.mk raw).is_mpeg2 = true
  · simp [h1, h2] at h
  rw [Bool.not_eq_true] at h2
  by_cases h3 : (Header.mk raw).layer = Layer.Reserved
  · simp [h1, h2, h3] at h
  by_cases h4 : (Header.mk raw).bitrate_index = 15
  · simp [h1, h2, h3, h4] at h
  by_cases h5 : (Header.mk raw).sampling_rate_index = some 3
  · simp [h1, h2, h3, h4, h5] at h
  by_cases h6 : (Header.mk raw).emphasis = Emphasis.Reserved
  · simp [h1, h2, h3, h4, h5, h6] at h
  simp only [h1, h2, h3, h4, h5, h6, Bool.false_eq_true, if_false, if_neg,
    not_false_eq_true] at h
  injection h with hh
  subst hh
  have hrep : 1 ≤ layerRepr ((Header.mk raw).layer)
      ∧ layerRepr ((Header.mk raw).layer) - 1 ≤ 2 := by
    cases hL : (Header.mk raw).layer
    · exact absurd hL h3
    · simp [layerRepr]
    · simp [layerRepr]
    · simp [layerRepr]
  have hm1 : (Header.mk raw).is_mpeg1 = true := by
    unfold Header.is_mpeg1
    rw [h1, h2]
    rfl
  have hbi_lt : (Header.mk raw).bitrate_index < 16 := by
    have hl := bitRangeU32_lt raw 12 16 (by norm_num) (by norm_num)
    norm_num at hl
    exact hl
  have hbi : (Header.mk raw).bitrate_index ≤ 14 := by omega
  have hsi_acc : (Header.mk raw).sampling_rate_index
      = some (bitRangeU32 raw 10 12) := by
    unfold Header.sampling_rate_index
    rw [hm1]
    simp only [if_true]
  have hsi_lt : bitRangeU32 raw 10 12 < 4 := by
    have hl := bitRangeU32_lt raw 10 12 (by norm_num) (by norm_num)
    norm_num at hl
    exact hl
  have hsi_ne : bitRangeU32 raw 10 12 ≠ 3 := by
    intro hc
    apply h5
    rw [hsi_acc, hc]
  have hsi : bitRangeU32 raw 10 12 ≤ 2 := by omega
  refine ⟨h3, hrep.1, hrep.2, hbi, ⟨bitRangeU32 raw 10 12, hsi_acc, hsi⟩, ?_, ?_⟩
  · unfold Header.bitrate_kbps
    rw [if_pos hrep.1]
    have h02 : layerRepr ((Header.mk raw).layer) - 1 = 0
        ∨ layerRepr ((Header.mk raw).layer) - 1 = 1
        ∨ layerRepr ((Header.mk raw).layer) - 1 = 2 := by omega
    rcases h02 with he | he | he <;> rw [he] <;>
      simp only [BITRATES, List.getElem?_cons_zero, List.getElem?_cons_succ,
        Option.some_bind] <;>
      exact isSome_getElem_of_lt _ _ (by simp only [List.length]; omega)
  · unfold Header.sampling_rate_hz
    rw [hsi_acc]
    exact isSome_getElem_of_lt RATES _ (by simp only [RATES, List.length]; omega)

/-- Witness for C10 at a concrete accepted header word. -/
theorem validated_header_table_lookups_in_bounds_witness :
    ((Header.mk 0xFFF58000).layer ≠ Layer.Reserved
      ∧ 1 ≤ layerRepr (Header.mk 0xFFF58000).layer
      ∧ layerRepr (Header.mk 0xFFF58000).layer - 1 ≤ 2
      ∧ (Header.mk 0xFFF58000).bitrate_index ≤ 14
      ∧ (∃ si, (Header.mk 0xFFF58000).sampling_rate_index = some si ∧ si ≤ 2)
      ∧ (Header.mk 0xFFF58000).bitrate_kbps.isSome = true
      ∧ (Header.mk 0xFFF58000).sampling_rate_hz.isSome = true) :=
  validated_header_table_lookups_in_bounds 0xFFF58000 (by norm_num)
    ⟨0xFFF58000⟩ rfl

/-- C2: the spec's resynchronization scenario fails on the code.  The
buffer is three zero bytes followed by the valid MPEG-1 layer II header
`FF F5 80 00` (128 kbps, 44100 Hz, stereo, no protection, no padding) —
the conjuncts besides the first show the embedded word really is such a
header — yet `read_header` returns "no more data" (`none`) with only the
first 4 bytes consumed, because its syncword predicate is constantly
false, and its scan loop never advances the cursor. -/
theorem read_header_resync_scenario_returns_none :
    readHeader [0x00, 0x00, 0x00, 0xFF, 0xF5, 0x80, 0x00]
        = (none, [0xF5, 0x80, 0x00])
      ∧ Header.from_raw 0xFFF58000 = Except.ok ⟨0xFFF58000⟩
      ∧ (Header.mk 0xFFF58000).layer = Layer.L2
      ∧ (Header.mk 0xFFF58000).bitrate_kbps = some 128
      ∧ (Header.mk 0xFFF58000).sampling_rate_hz = some 44100
      ∧ (Header.mk 0xFFF58000).channel_mode = Mode.Stereo
      ∧ (Header.mk 0xFFF58000).is_protected = false
      ∧ (Header.mk 0xFFF58000).padding = false :=
  ⟨rfl, rfl, by decide, by decide, by decide, by decide, by decide, by decide⟩

/-- C9: the spec's protected-header scenario fails on the code.  The
buffer starts with the valid protected MPEG-1 header `FF F4 80 00`
(protection flag set) followed by two CRC bytes and one more byte; the
claim expects the header decoded with 4 + 2 bytes consumed, but
`read_header` returns "no more data" (`none`) because its syncword
predicate is constantly false, so the CRC-consuming path is unreachable. -/
theorem read_header_protected_scenario_returns_none :
    readHeader [0xFF, 0xF4, 0x80, 0x00, 0xAB, 0xCD, 0x01]
        = (none, [0xAB, 0xCD, 0x01])
      ∧ Header.from_raw 0xFFF48000 = Except.ok ⟨0xFFF48000⟩
      ∧ (Header.mk 0xFFF48000).is_protected = true :=
  ⟨rfl, rfl, by decide⟩

end Rustymp3
